import Mathlib

set_option autoImplicit false

namespace Segyio

/-- Claim-relevant Python exception values raised by the segy module, identified by
exception class and message. -/
inductive PyError where
| valueError (msg : String)
| indexError (msg : String)
| runtimeError (msg : String)
deriving DecidableEq

/-- Trace sorting constants from segyio.tracesortingformat, compared against by the
fast and slow properties. -/
inductive TraceSortingFormat where
| UNKNOWN_SORTING
| CROSSLINE_SORTING
| INLINE_SORTING
deriving DecidableEq

/-- Numpy dtypes that SegyFile assigns to its trace store in its constructor. -/
inductive DType where
| float32
| int32
| int16
| int8
deriving DecidableEq

/-- View objects (Line, Gather, Depth, TextHeader, Field) are modelled by object
identity: a fresh allocation counter value is the id of each constructed object. -/
structure ViewObj where
  id : Nat
deriving DecidableEq

/-- State of an open SegyFile: the property value holders set in the constructor and by
geometry resolution in segyio.open, the cached view object slots, and the collaborator
data that the xfd handle reads (text header slots, per-trace header field words). -/
structure SegyFile where
  _ilines : Option (List Int)
  _xlines : Option (List Int)
  _sorting : Option TraceSortingFormat
  _offsets : Option (List Int)
  _iline_length : Option Nat
  _iline_stride : Option Nat
  _xline_length : Option Nat
  _xline_stride : Option Nat
  _tracecount : Nat
  _ext_headers : Nat
  texts : List String
  headerField : Nat → Int → Int
  _iline : Option ViewObj
  _xline : Option ViewObj
  _gather : Option ViewObj
  depth : Option ViewObj
  nextId : Nat

/-- Property SegyFile.ilines: the inline labels, or None if unstructured. -/
def SegyFile.ilines (f : SegyFile) : Option (List Int) := f._ilines

/-- Property SegyFile.xlines: the crossline labels, or None if unstructured. -/
def SegyFile.xlines (f : SegyFile) : Option (List Int) := f._xlines

/-- Property SegyFile.sorting: inline or crossline sorting, or None if unstructured. -/
def SegyFile.sorting (f : SegyFile) : Option TraceSortingFormat := f._sorting

/-- Property SegyFile.tracecount: number of traces in the file. -/
def SegyFile.tracecount (f : SegyFile) : Nat := f._tracecount

/-- Property SegyFile.ext_headers: number of extra text headers. -/
def SegyFile.ext_headers (f : SegyFile) : Nat := f._ext_headers

/-- Property SegyFile.unstructured: true exactly when self.ilines is None. -/
def SegyFile.unstructured (f : SegyFile) : Bool := f.ilines.isNone

/-- Message of the ValueError raised by structured accessors on unstructured files. -/
def unstructured_errmsg : String := "File opened in unstructured mode."

/-- Error raised by the line, gather and depth accessors on an unstructured file; this
realises the GeometryUnavailable kind of the specification. -/
def geometryUnavailable : PyError := .valueError unstructured_errmsg

/-- Property SegyFile.iline: raises ValueError on an unstructured file, else returns
the cached Line view, constructing and caching it on first access. -/
def SegyFile.iline_acc (f : SegyFile) : Except PyError (ViewObj × SegyFile) :=
  if f.unstructured then .error geometryUnavailable
  else
    match f._iline with
    | some v => .ok (v, f)
    | none =>
      let v : ViewObj := ⟨f.nextId⟩
      .ok (v, { f with _iline := some v, nextId := f.nextId + 1 })

/-- Property SegyFile.xline: raises ValueError on an unstructured file, else returns
the cached Line view, constructing and caching it on first access. -/
def SegyFile.xline_acc (f : SegyFile) : Except PyError (ViewObj × SegyFile) :=
  if f.unstructured then .error geometryUnavailable
  else
    match f._xline with
    | some v => .ok (v, f)
    | none =>
      let v : ViewObj := ⟨f.nextId⟩
      .ok (v, { f with _xline := some v, nextId := f.nextId + 1 })

/-- Property SegyFile.gather: raises ValueError on an unstructured file, else returns
the cached Gather view; on first access it constructs Gather from the trace, iline and
xline properties, which may themselves construct and cache the two line views. -/
def SegyFile.gather_acc (f : SegyFile) : Except PyError (ViewObj × SegyFile) :=
  if f.unstructured then .error geometryUnavailable
  else
    match f._gather with
    | some v => .ok (v, f)
    | none =>
      match f.iline_acc with
      | .error e => .error e
      | .ok (_, f1) =>
        match f1.xline_acc with
        | .error e => .error e
        | .ok (_, f2) =>
          let v : ViewObj := ⟨f2.nextId⟩
          .ok (v, { f2 with _gather := some v, nextId := f2.nextId + 1 })

/-- Property SegyFile.depth_slice: raises ValueError on an unstructured file, else
returns the cached Depth view, constructing and caching it on first access. -/
def SegyFile.depth_slice_acc (f : SegyFile) : Except PyError (ViewObj × SegyFile) :=
  if f.unstructured then .error geometryUnavailable
  else
    match f.depth with
    | some v => .ok (v, f)
    | none =>
      let v : ViewObj := ⟨f.nextId⟩
      .ok (v, { f with depth := some v, nextId := f.nextId + 1 })

/-- Property SegyFile.text: returns TextHeader(self), a freshly constructed object on
every access, with no cache slot. -/
def SegyFile.text_acc (f : SegyFile) : ViewObj × SegyFile :=
  (⟨f.nextId⟩, { f with nextId := f.nextId + 1 })

/-- Property SegyFile.bin: returns Field.binary(self), a freshly constructed object on
every access, with no cache slot. -/
def SegyFile.bin_acc (f : SegyFile) : ViewObj × SegyFile :=
  (⟨f.nextId⟩, { f with nextId := f.nextId + 1 })

/-- Property SegyFile.fast: the iline property under inline sorting, the xline property
under crossline sorting, and RuntimeError on any other sorting value. -/
def SegyFile.fast_acc (f : SegyFile) : Except PyError (ViewObj × SegyFile) :=
  if f.sorting = some TraceSortingFormat.INLINE_SORTING then f.iline_acc
  else if f.sorting = some TraceSortingFormat.CROSSLINE_SORTING then f.xline_acc
  else .error (.runtimeError "Unknown sorting.")

/-- Property SegyFile.slow: the xline property under inline sorting, the iline property
under crossline sorting, and RuntimeError on any other sorting value. -/
def SegyFile.slow_acc (f : SegyFile) : Except PyError (ViewObj × SegyFile) :=
  if f.sorting = some TraceSortingFormat.INLINE_SORTING then f.xline_acc
  else if f.sorting = some TraceSortingFormat.CROSSLINE_SORTING then f.iline_acc
  else .error (.runtimeError "Unknown sorting.")

/-- Mapping from the binary sample format code to the numpy dtype of the traces: the
dict literal in the SegyFile constructor. -/
def formatDtypes (fmt : Int) : Option DType :=
  if fmt = 1 then some .float32
  else if fmt = 2 then some .int32
  else if fmt = 3 then some .int16
  else if fmt = 5 then some .float32
  else if fmt = 8 then some .int8
  else none

/-- Outcome of the sample format handling in the SegyFile constructor: the stored
format code, the trace dtype, and whether a warning was surfaced. -/
structure FormatInit where
  fmt : Int
  dtype : DType
  warned : Bool
deriving DecidableEq

/-- Sample format handling in the SegyFile constructor: a KeyError from the dtype dict
is caught, a warning is surfaced, and the format falls back to 1 with a float32 dtype. -/
def initFormat (fmt : Int) : FormatInit :=
  match formatDtypes fmt with
  | some d => { fmt := fmt, dtype := d, warned := false }
  | none => { fmt := 1, dtype := DType.float32, warned := true }

/-- Modelled from the spec: the full-range assignment view ranged over the whole slice,
performed by every macro-assignment setter in segy.py. The setitem methods of the
Trace, Header, Line and Depth views are not among the sources; per the Macro Assignment
Protocol they consume source items in order, write them to destination positions from
position 0, stop as soon as either side is exhausted, and never raise. -/
def bulkAssign {α : Type} : List α → List α → List α
  | [], _ => []
  | d :: dest, src =>
    match src with
    | [] => d :: dest
    | s :: rest => s :: bulkAssign dest rest

/-- Record stores addressed by the five macro-assignment setters: the flat trace store,
the flat header store, the two line-addressed views and the depth-slice view. -/
structure Stores where
  traces : List (List Int)
  headers : List (List (Nat × Int))
  ilineRecs : List (List (List Int))
  xlineRecs : List (List (List Int))
  depthRecs : List (List Int)

/-- Setter of the SegyFile.trace property: assigns val to the full trace range. -/
def trace_setter (st : Stores) (val : List (List Int)) : Stores :=
  { st with traces := bulkAssign st.traces val }

/-- Setter of the SegyFile.header property: assigns val to the full header range. -/
def header_setter (st : Stores) (val : List (List (Nat × Int))) : Stores :=
  { st with headers := bulkAssign st.headers val }

/-- Setter of the SegyFile.iline property: assigns val to the full inline range. -/
def iline_setter (st : Stores) (val : List (List (List Int))) : Stores :=
  { st with ilineRecs := bulkAssign st.ilineRecs val }

/-- Setter of the SegyFile.xline property: assigns val to the full crossline range. -/
def xline_setter (st : Stores) (val : List (List (List Int))) : Stores :=
  { st with xlineRecs := bulkAssign st.xlineRecs val }

/-- Setter of the SegyFile.depth_slice property: assigns val to the full depth range. -/
def depth_slice_setter (st : Stores) (val : List (List Int)) : Stores :=
  { st with depthRecs := bulkAssign st.depthRecs val }

/-- Python slice object; each of start, stop and step may be None. -/
structure PySlice where
  start : Option Int
  stop : Option Int
  step : Option Int
deriving DecidableEq

/-- Python slice.indices: clamp start and stop to the valid index range for a sequence
of the given length, following the CPython algorithm for a nonzero step. -/
def sliceIndices (s : PySlice) (length : Nat) : Int × Int × Int :=
  let step : Int := s.step.getD 1
  let L : Int := (length : Int)
  let lower : Int := if step < 0 then -1 else 0
  let upper : Int := if step < 0 then L - 1 else L
  let start : Int :=
    match s.start with
    | none => if step < 0 then upper else lower
    | some v => if v < 0 then max (v + L) lower else min v upper
  let stop : Int :=
    match s.stop with
    | none => if step < 0 then lower else upper
    | some v => if v < 0 then max (v + L) lower else min v upper
  (start, stop, step)

/-- Number of elements of the Python range with the given start, stop and step. -/
def pyRangeLen (start stop step : Int) : Nat :=
  if 0 < step then ((stop - start + step - 1).fdiv step).toNat
  else if step < 0 then ((start - stop - step - 1).fdiv (-step)).toNat
  else 0

/-- Elements of the Python range with the given start, stop and step, in order. -/
def pyRange (start stop step : Int) : List Int :=
  (List.range (pyRangeLen start stop step)).map (fun k => start + (k : Int) * step)

/-- Modelled from the spec: the collaborator batched field read for an explicit index
list (xfd.field_foreach, implemented in the C extension, not among the sources): one
header word per input index, in input order. -/
def field_foreach (f : SegyFile) (field : Nat) (xs : List Int) : List Int :=
  xs.map (f.headerField field)

/-- Modelled from the spec: the collaborator batched field read over a start, stop,
step range (xfd.field_forall, implemented in the C extension, not among the sources):
one header word per selected trace index, in range order. -/
def field_forall (f : SegyFile) (field : Nat) (start stop step : Int) : List Int :=
  (pyRange start stop step).map (f.headerField field)

/-- Argument given to the getitem method of the attributes object: an iterable index
list, a slice, or a non-iterable non-slice scalar. -/
inductive AttrArg where
| idx (i : Int)
| slc (s : PySlice)
| lst (xs : List Int)

/-- Slice branch of the getitem method of the attributes object: resolve the slice
against tracecount with slice.indices and read the field over the resulting range. A
zero step raises ValueError inside slice.indices, as in Python. -/
def attr_getitem_slice (f : SegyFile) (field : Nat) (s : PySlice) :
    Except PyError (List Int) :=
  if s.step = some 0 then .error (.valueError "slice step cannot be zero")
  else
    let r := sliceIndices s f.tracecount
    .ok (field_forall f field r.1 r.2.1 r.2.2)

/-- Getitem method of the object returned by SegyFile.attributes: an iterable argument
is sent to the list branch (field_foreach); a non-slice scalar i is first replaced by
the slice from i to i + 1 with step 1; a slice is resolved with slice.indices over
tracecount and read with field_forall. -/
def attr_getitem (f : SegyFile) (field : Nat) : AttrArg → Except PyError (List Int)
  | .lst xs => .ok (field_foreach f field xs)
  | .slc s => attr_getitem_slice f field s
  | .idx i =>
      attr_getitem_slice f field { start := some i, stop := some (i + 1), step := some 1 }

/-- Statement device for the amended claim C9: the value of a scalar attributes lookup
at index i, resolved through the slice from i to i + 1 with step 1. In-range indices
give one value; indices from -tracecount to -2 give the one value at tracecount + i;
index -1, indices below -tracecount and indices at or past tracecount give an empty
result. -/
def scalarAttrSpec (f : SegyFile) (field : Nat) (i : Int) : List Int :=
  if 0 ≤ i ∧ i < (f.tracecount : Int) then [f.headerField field i]
  else if -(f.tracecount : Int) ≤ i ∧ i ≤ -2 then
    [f.headerField field (i + (f.tracecount : Int))]
  else []

/-- Modelled from the spec: collaborator text header read (xfd.gettext, implemented in
the C extension, not among the sources). -/
def gettext (f : SegyFile) (index : Int) : String := f.texts.getD index.toNat ""

/-- Modelled from the spec: collaborator text header write (xfd.puttext, implemented in
the C extension, not among the sources). -/
def puttext (f : SegyFile) (index : Int) (val : String) : SegyFile :=
  { f with texts := f.texts.set index.toNat val }

/-- Message of the IndexError raised by TextHeader for an out-of-range slot index. -/
def textIndexMsg (index : Int) : String :=
  "Textual header " ++ toString index ++ " not in file"

/-- Getitem method of TextHeader: bounds check that the index lies between 0 and
ext_headers inclusive, then delegate to gettext. -/
def TextHeader.getitem (f : SegyFile) (index : Int) : Except PyError String :=
  if 0 ≤ index ∧ index ≤ (f.ext_headers : Int) then .ok (gettext f index)
  else .error (.indexError (textIndexMsg index))

/-- Right-hand side of a text header slot assignment: a plain string, or another
TextHeader, modelled as the file that the source TextHeader wraps. -/
inductive TextValue where
| str (s : String)
| thdr (g : SegyFile)

/-- Setitem method of TextHeader: a TextHeader value is first replaced by its slot 0
through a recursive assignment; then the index is bounds checked between 0 and
ext_headers inclusive and the write delegates to puttext. -/
def TextHeader.setitem (f : SegyFile) (index : Int) (val : TextValue) :
    Except PyError SegyFile :=
  match val with
  | .thdr g =>
    match TextHeader.getitem g 0 with
    | .error e => .error e
    | .ok s =>
      if 0 ≤ index ∧ index ≤ (f.ext_headers : Int) then .ok (puttext f index s)
      else .error (.indexError (textIndexMsg index))
  | .str s =>
    if 0 ≤ index ∧ index ≤ (f.ext_headers : Int) then .ok (puttext f index s)
    else .error (.indexError (textIndexMsg index))

/-- Modelled from the spec: the invariant established by the geometry resolver run from
segyio.open, which is not among the sources. Either geometry resolution succeeds and
ilines is a nonempty label list, or it fails and every geometry field is left absent:
if ilines is empty or absent the file is unstructured and sorting, xlines and the line
lengths and strides are all undefined, represented as absent, not zero. -/
def WellFormed (f : SegyFile) : Prop :=
  f._ilines ≠ some [] ∧
  (f._ilines = none →
    f._xlines = none ∧ f._sorting = none ∧
    f._iline_length = none ∧ f._iline_stride = none ∧
    f._xline_length = none ∧ f._xline_stride = none)

/-- Header field table of the concrete example files: the field word of a trace equals
its trace index. -/
def hfId : Nat → Int → Int := fun _ i => i

/-- Concrete structured example file: 2 inlines, 3 crosslines, 1 offset, 6 traces, one
extended text header, no view constructed yet. -/
def fStruct : SegyFile where
  _ilines := some [1, 2]
  _xlines := some [10, 20, 30]
  _sorting := some TraceSortingFormat.INLINE_SORTING
  _offsets := some [1]
  _iline_length := some 3
  _iline_stride := some 1
  _xline_length := some 2
  _xline_stride := some 3
  _tracecount := 6
  _ext_headers := 1
  texts := ["slot0", "slot1"]
  headerField := hfId
  _iline := none
  _xline := none
  _gather := none
  depth := none
  nextId := 0

/-- Concrete unstructured example file: geometry resolution failed, so every geometry
field is absent; 5 traces, no extended text header. -/
def fUnstr : SegyFile where
  _ilines := none
  _xlines := none
  _sorting := none
  _offsets := none
  _iline_length := none
  _iline_stride := none
  _xline_length := none
  _xline_stride := none
  _tracecount := 5
  _ext_headers := 0
  texts := ["only"]
  headerField := hfId
  _iline := none
  _xline := none
  _gather := none
  depth := none
  nextId := 0

/-- State of fStruct after the inline view has been constructed and cached. -/
def fStructIline : SegyFile := { fStruct with _iline := some ⟨0⟩, nextId := 1 }

/-- Concrete store contents for the macro-assignment witness. -/
def st0 : Stores where
  traces := [[1], [2], [3]]
  headers := [[(0, 0)]]
  ilineRecs := [[[0]]]
  xlineRecs := [[[0]]]
  depthRecs := [[0]]

/-- The well-formedness of the unstructured example file. -/
theorem fUnstr_wf : WellFormed fUnstr :=
  ⟨fun h => Option.noConfusion h, fun _ => ⟨rfl, rfl, rfl, rfl, rfl, rfl⟩⟩

/-- The bulk assignment protocol preserves the size of the destination range. -/
theorem bulkAssign_length {α : Type} : ∀ (d s : List α),
    (bulkAssign d s).length = d.length
  | [], _ => rfl
  | _ :: _, [] => rfl
  | _ :: d, _ :: s => by
      simp only [bulkAssign, List.length_cons, bulkAssign_length d s]

/-- Positions covered by the source are written with the source items, in order. -/
theorem bulkAssign_get_lt {α : Type} : ∀ (d s : List α) (k : Nat),
    k < s.length → k < d.length → (bulkAssign d s)[k]? = s[k]?
  | [], _, k, _, h2 => absurd h2 (by simp)
  | _ :: _, [], k, h1, _ => absurd h1 (by simp)
  | _ :: _, _ :: _, 0, _, _ => by simp [bulkAssign]
  | _ :: d, _ :: s, k + 1, h1, h2 => by
      simp only [bulkAssign, List.getElem?_cons_succ]
      exact bulkAssign_get_lt d s k (by simpa using h1) (by simpa using h2)

/-- Positions past the end of the source keep their previous contents. -/
theorem bulkAssign_get_ge {α : Type} : ∀ (d s : List α) (k : Nat),
    s.length ≤ k → (bulkAssign d s)[k]? = d[k]?
  | [], _, _, _ => by simp [bulkAssign]
  | _ :: _, [], _, _ => rfl
  | _ :: _, _ :: s, 0, h => absurd h (by simp)
  | _ :: d, _ :: s, k + 1, h => by
      simp only [bulkAssign, List.getElem?_cons_succ]
      exact bulkAssign_get_ge d s k (by simpa using h)

/-- Claim C2: every macro-assignment property setter (trace, header, iline, xline,
depth_slice) performs the full-range assignment of the value to the whole view under
the shared protocol: for a destination range of size N, source items are consumed in
order and written to positions 0, 1, and so on; a source exhausted after k < N items
stops the write silently, leaving positions from k on unmodified, and a source longer
than N writes only the first N items, with no error in either case. -/
theorem C2_macro_assignment {α : Type} (st : Stores) (tv : List (List Int))
    (hv : List (List (Nat × Int))) (iv xv : List (List (List Int)))
    (dv : List (List Int)) (d s : List α) (k : Nat) :
    (trace_setter st tv).traces = bulkAssign st.traces tv ∧
    (header_setter st hv).headers = bulkAssign st.headers hv ∧
    (iline_setter st iv).ilineRecs = bulkAssign st.ilineRecs iv ∧
    (xline_setter st xv).xlineRecs = bulkAssign st.xlineRecs xv ∧
    (depth_slice_setter st dv).depthRecs = bulkAssign st.depthRecs dv ∧
    (bulkAssign d s).length = d.length ∧
    (k < s.length → k < d.length → (bulkAssign d s)[k]? = s[k]?) ∧
    (s.length ≤ k → (bulkAssign d s)[k]? = d[k]?) :=
  ⟨rfl, rfl, rfl, rfl, rfl, bulkAssign_length d s,
   fun h1 h2 => bulkAssign_get_lt d s k h1 h2,
   fun h => bulkAssign_get_ge d s k h⟩

/-- Witness for claim C2 at a concrete destination of size 3 and source of size 1: the
written position holds the source item and a position past the source is unchanged. -/
theorem C2_witness :
    ((bulkAssign ([10, 20, 30] : List Int) [7])[0]? = ([7] : List Int)[0]?) ∧
    ((bulkAssign ([10, 20, 30] : List Int) [7])[2]? = ([10, 20, 30] : List Int)[2]?) :=
  ⟨(C2_macro_assignment st0 [] [] [] [] [] ([10, 20, 30] : List Int) [7] 0).2.2.2.2.2.2.1
      (by decide) (by decide),
   (C2_macro_assignment st0 [] [] [] [] [] ([10, 20, 30] : List Int) [7] 2).2.2.2.2.2.2.2
      (by decide)⟩

/-- Claim C6: an unsupported sample format code does not fail the open: it surfaces a
warning and falls back to format 1 with the float32 dtype; each supported code maps to
its fixed dtype with no warning. -/
theorem C6_format_fallback (fmt : Int)
    (h : fmt ≠ 1 ∧ fmt ≠ 2 ∧ fmt ≠ 3 ∧ fmt ≠ 5 ∧ fmt ≠ 8) :
    initFormat fmt = { fmt := 1, dtype := DType.float32, warned := true } ∧
    initFormat 1 = { fmt := 1, dtype := DType.float32, warned := false } ∧
    initFormat 2 = { fmt := 2, dtype := DType.int32, warned := false } ∧
    initFormat 3 = { fmt := 3, dtype := DType.int16, warned := false } ∧
    initFormat 5 = { fmt := 5, dtype := DType.float32, warned := false } ∧
    initFormat 8 = { fmt := 8, dtype := DType.int8, warned := false } := by
  obtain ⟨h1, h2, h3, h5, h8⟩ := h
  refine ⟨?_, rfl, rfl, rfl, rfl, rfl⟩
  simp [initFormat, formatDtypes, h1, h2, h3, h5, h8]

/-- Witness for claim C6 at the unsupported format code 42. -/
theorem C6_witness :
    initFormat 42 = { fmt := 1, dtype := DType.float32, warned := true } ∧
    initFormat 1 = { fmt := 1, dtype := DType.float32, warned := false } ∧
    initFormat 2 = { fmt := 2, dtype := DType.int32, warned := false } ∧
    initFormat 3 = { fmt := 3, dtype := DType.int16, warned := false } ∧
    initFormat 5 = { fmt := 5, dtype := DType.float32, warned := false } ∧
    initFormat 8 = { fmt := 8, dtype := DType.int8, warned := false } :=
  C6_format_fallback 42 (by decide)

/-- Claim C7: text header read and write by slot index are bounds checked against the
slot range from 0 to ext_headers inclusive: outside the range both fail with an
IndexError, inside the range they delegate to gettext and puttext without error. -/
theorem C7_text_bounds (f : SegyFile) (index : Int) (v : TextValue) (s : String) :
    (¬ (0 ≤ index ∧ index ≤ (f.ext_headers : Int)) →
      TextHeader.getitem f index = .error (.indexError (textIndexMsg index)) ∧
      TextHeader.setitem f index v = .error (.indexError (textIndexMsg index))) ∧
    ((0 ≤ index ∧ index ≤ (f.ext_headers : Int)) →
      TextHeader.getitem f index = .ok (gettext f index) ∧
      TextHeader.setitem f index (.str s) = .ok (puttext f index s)) := by
  constructor
  · intro hout
    refine ⟨by simp [TextHeader.getitem, hout], ?_⟩
    cases v with
    | str t => simp [TextHeader.setitem, hout]
    | thdr g =>
        have h0 : TextHeader.getitem g 0 = .ok (gettext g 0) := by
          simp [TextHeader.getitem]
        simp [TextHeader.setitem, h0, hout]
  · intro hin
    exact ⟨by simp [TextHeader.getitem, hin], by simp [TextHeader.setitem, hin]⟩

/-- Witness for claim C7: slot 5 of a file with one extended header is rejected for
both read and write, slot 0 is read and written through gettext and puttext. -/
theorem C7_witness :
    (TextHeader.getitem fStruct 5 = .error (.indexError (textIndexMsg 5)) ∧
     TextHeader.setitem fStruct 5 (.str "x") = .error (.indexError (textIndexMsg 5))) ∧
    (TextHeader.getitem fStruct 0 = .ok (gettext fStruct 0) ∧
     TextHeader.setitem fStruct 0 (.str "y") = .ok (puttext fStruct 0 "y")) :=
  ⟨(C7_text_bounds fStruct 5 (.str "x") "x").1 (by decide),
   (C7_text_bounds fStruct 0 (.str "y") "y").2 (by decide)⟩

/-- Claim C10: assigning a TextHeader as the value of an in-bounds text header slot
copies slot 0 of the source into the destination slot, whatever slots the source file
has; slot 0 of the source is its first text entry. -/
theorem C10_textheader_copy (f g : SegyFile) (index : Int)
    (h0 : 0 ≤ index) (h1 : index ≤ (f.ext_headers : Int)) :
    TextHeader.setitem f index (.thdr g) = .ok (puttext f index (gettext g 0)) ∧
    gettext g 0 = g.texts.getD 0 "" := by
  have hg : TextHeader.getitem g 0 = .ok (gettext g 0) := by
    simp [TextHeader.getitem]
  refine ⟨?_, rfl⟩
  simp [TextHeader.setitem, hg, h0, h1]

/-- Witness for claim C10: copying the source file text into slot 1. -/
theorem C10_witness :
    TextHeader.setitem fStruct 1 (.thdr fUnstr) =
      .ok (puttext fStruct 1 (gettext fUnstr 0)) ∧
    gettext fUnstr 0 = fUnstr.texts.getD 0 "" :=
  C10_textheader_copy fStruct fUnstr 1 (by decide) (by decide)

/-- Claim C1: on a well-formed file whose geometry resolution failed, the ilines,
xlines and sorting properties are all absent (None), and the iline, xline, gather and
depth_slice accessors fail with the GeometryUnavailable kind ValueError instead of
returning a view. -/
theorem C1_unstructured_access (f : SegyFile) (hw : WellFormed f)
    (h : f.unstructured = true) :
    f.ilines = none ∧ f.xlines = none ∧ f.sorting = none ∧
    f.iline_acc = .error geometryUnavailable ∧
    f.xline_acc = .error geometryUnavailable ∧
    f.gather_acc = .error geometryUnavailable ∧
    f.depth_slice_acc = .error geometryUnavailable := by
  have hil : f._ilines = none := by
    simpa [SegyFile.unstructured, SegyFile.ilines, Option.isNone_iff_eq_none] using h
  obtain ⟨-, himp⟩ := hw
  obtain ⟨hx, hs, -⟩ := himp hil
  refine ⟨hil, hx, hs, ?_, ?_, ?_, ?_⟩ <;>
    simp [SegyFile.iline_acc, SegyFile.xline_acc, SegyFile.gather_acc,
      SegyFile.depth_slice_acc, h]

/-- Witness for claim C1 at the concrete unstructured file. -/
theorem C1_witness :
    fUnstr.ilines = none ∧ fUnstr.xlines = none ∧ fUnstr.sorting = none ∧
    fUnstr.iline_acc = .error geometryUnavailable ∧
    fUnstr.xline_acc = .error geometryUnavailable ∧
    fUnstr.gather_acc = .error geometryUnavailable ∧
    fUnstr.depth_slice_acc = .error geometryUnavailable :=
  C1_unstructured_access fUnstr fUnstr_wf rfl

/-- Claim C5: a well-formed file is unstructured exactly when its ilines sequence is
empty or absent, and then sorting, xlines and the line lengths and strides are all
absent (None, not zero). -/
theorem C5_unstructured_iff (f : SegyFile) (hw : WellFormed f) :
    (f.unstructured = true ↔ (f.ilines = none ∨ f.ilines = some [])) ∧
    (f.unstructured = true →
      f.sorting = none ∧ f.xlines = none ∧
      f._iline_length = none ∧ f._iline_stride = none ∧
      f._xline_length = none ∧ f._xline_stride = none) := by
  obtain ⟨hne, himp⟩ := hw
  constructor
  · constructor
    · intro h
      left
      simpa [SegyFile.unstructured, SegyFile.ilines, Option.isNone_iff_eq_none] using h
    · rintro (h | h)
      · simp [SegyFile.unstructured, h]
      · exact absurd h hne
  · intro h
    have hil : f._ilines = none := by
      simpa [SegyFile.unstructured, SegyFile.ilines, Option.isNone_iff_eq_none] using h
    obtain ⟨hx, hs, h1, h2, h3, h4⟩ := himp hil
    exact ⟨hs, hx, h1, h2, h3, h4⟩

/-- Witness for claim C5 at the concrete unstructured file. -/
theorem C5_witness :
    (fUnstr.unstructured = true ↔ (fUnstr.ilines = none ∨ fUnstr.ilines = some [])) ∧
    (fUnstr.unstructured = true →
      fUnstr.sorting = none ∧ fUnstr.xlines = none ∧
      fUnstr._iline_length = none ∧ fUnstr._iline_stride = none ∧
      fUnstr._xline_length = none ∧ fUnstr._xline_stride = none) :=
  C5_unstructured_iff fUnstr fUnstr_wf

/-- Counterexample to claim C8: on the concrete unstructured file the fast accessor
fails with RuntimeError, which is not the GeometryUnavailable kind ValueError that the
iline accessor raises on the same file. -/
theorem C8_counterexample :
    fUnstr.fast_acc = .error (.runtimeError "Unknown sorting.") ∧
    fUnstr.fast_acc ≠ .error geometryUnavailable ∧
    fUnstr.iline_acc = .error geometryUnavailable := by
  refine ⟨rfl, ?_, rfl⟩
  intro hc
  have : (PyError.runtimeError "Unknown sorting.") = geometryUnavailable := by
    have h1 : fUnstr.fast_acc =
        (.error (.runtimeError "Unknown sorting.") :
          Except PyError (ViewObj × SegyFile)) := rfl
    rw [h1] at hc
    exact Except.error.inj hc
  simp [geometryUnavailable] at this

/-- Claim C8 amended: on every well-formed unstructured file the fast and slow
accessors fail, but with a RuntimeError about unknown sorting, a different error kind
from the GeometryUnavailable kind ValueError raised when requesting a line, gather or
depth slice on an unstructured file. -/
theorem C8_fast_slow_amended (f : SegyFile) (hw : WellFormed f)
    (h : f.unstructured = true) :
    f.fast_acc = .error (.runtimeError "Unknown sorting.") ∧
    f.slow_acc = .error (.runtimeError "Unknown sorting.") ∧
    f.iline_acc = .error geometryUnavailable ∧
    (PyError.runtimeError "Unknown sorting.") ≠ geometryUnavailable := by
  have hil : f._ilines = none := by
    simpa [SegyFile.unstructured, SegyFile.ilines, Option.isNone_iff_eq_none] using h
  obtain ⟨-, himp⟩ := hw
  obtain ⟨-, hs, -⟩ := himp hil
  refine ⟨?_, ?_, ?_, by simp [geometryUnavailable]⟩
  · simp [SegyFile.fast_acc, SegyFile.sorting, hs]
  · simp [SegyFile.slow_acc, SegyFile.sorting, hs]
  · simp [SegyFile.iline_acc, h]

/-- Witness for the amended claim C8 at the concrete unstructured file. -/
theorem C8_witness :
    fUnstr.fast_acc = .error (.runtimeError "Unknown sorting.") ∧
    fUnstr.slow_acc = .error (.runtimeError "Unknown sorting.") ∧
    fUnstr.iline_acc = .error geometryUnavailable ∧
    (PyError.runtimeError "Unknown sorting.") ≠ geometryUnavailable :=
  C8_fast_slow_amended fUnstr fUnstr_wf rfl

/-- A Python range with step 1 whose stop is one past its start has one element. -/
theorem pyRange_one (a b : Int) (h : b = a + 1) : pyRange a b 1 = [a] := by
  subst h
  have hlen : pyRangeLen a (a + 1) 1 = 1 := by
    have h1 : a + 1 - a + 1 - 1 = 1 := by omega
    simp [pyRangeLen, h1, Int.fdiv_one]
  rw [pyRange, hlen, List.range_succ, List.range_zero]
  simp

/-- A Python range with step 1 whose stop is at or before its start is empty. -/
theorem pyRange_nil (a b : Int) (h : b ≤ a) : pyRange a b 1 = [] := by
  have hlen : pyRangeLen a b 1 = 0 := by
    simp only [pyRangeLen, if_pos (by norm_num : (0 : Int) < 1), Int.fdiv_one]
    omega
  simp [pyRange, hlen]

/-- Claim C3: the field projection view preserves order and duplicates: the index-list
mode returns one value per input index at the matching position, in order, duplicates
included, and the contiguous-range mode resolves the slice with slice.indices over
tracecount and returns one value per selected trace index, in range order. -/
theorem C3_attributes_order (f : SegyFile) (field : Nat) (xs : List Int) (s : PySlice)
    (a b c : Int) (k : Nat) :
    attr_getitem f field (.lst xs) = .ok (field_foreach f field xs) ∧
    (field_foreach f field xs).length = xs.length ∧
    (field_foreach f field xs)[k]? = (xs[k]?).map (f.headerField field) ∧
    (s.step ≠ some 0 →
      attr_getitem f field (.slc s) = .ok (field_forall f field
        (sliceIndices s f.tracecount).1 (sliceIndices s f.tracecount).2.1
        (sliceIndices s f.tracecount).2.2)) ∧
    (field_forall f field a b c).length = (pyRange a b c).length ∧
    (field_forall f field a b c)[k]? = ((pyRange a b c)[k]?).map (f.headerField field) := by
  refine ⟨rfl, by simp [field_foreach], by simp [field_foreach], ?_,
    by simp [field_forall], by simp [field_forall]⟩
  intro hstep
  simp [attr_getitem, attr_getitem_slice, hstep]

/-- Witness for claim C3: the slice from 0 to 6 with step 2 on the concrete structured
file resolves through slice.indices and field_forall. -/
theorem C3_witness :
    attr_getitem fStruct 0 (.slc { start := some 0, stop := some 6, step := some 2 }) =
      .ok (field_forall fStruct 0
        (sliceIndices { start := some 0, stop := some 6, step := some 2 }
          fStruct.tracecount).1
        (sliceIndices { start := some 0, stop := some 6, step := some 2 }
          fStruct.tracecount).2.1
        (sliceIndices { start := some 0, stop := some 6, step := some 2 }
          fStruct.tracecount).2.2) :=
  (C3_attributes_order fStruct 0 []
    { start := some 0, stop := some 6, step := some 2 } 0 0 1 0).2.2.2.1 (by decide)

/-- Counterexample to claim C9: a negative scalar index does not always give an empty
array: at index -2 on the concrete file with 6 traces the lookup returns the one value
of the trace at position 4. -/
theorem C9_counterexample :
    attr_getitem fStruct 0 (.idx (-2)) = .ok [4] ∧
    attr_getitem fStruct 0 (.idx (-2)) ≠ .ok [] := by
  have h : attr_getitem fStruct 0 (.idx (-2)) = .ok [4] := by rfl
  refine ⟨h, ?_⟩
  rw [h]
  intro hc
  simpa using Except.ok.inj hc

/-- Claim C9 amended: a scalar index i resolves exactly like the slice from i to i + 1
with step 1 under Python slice semantics over tracecount: a length-1 array at position
i when i is in range, a length-1 array at position tracecount + i when i is between
-tracecount and -2, and an empty array (never an error) when i is -1, below
-tracecount, or at least tracecount. -/
theorem C9_scalar_amended (f : SegyFile) (field : Nat) (i : Int) :
    attr_getitem f field (.idx i) =
      attr_getitem f field
        (.slc { start := some i, stop := some (i + 1), step := some 1 }) ∧
    attr_getitem f field (.idx i) = .ok (scalarAttrSpec f field i) := by
  refine ⟨rfl, ?_⟩
  have hne : ({ start := some i, stop := some (i + 1), step := some 1 } :
      PySlice).step ≠ some 0 := by simp
  show attr_getitem_slice f field _ = _
  rw [attr_getitem_slice, if_neg hne]
  have hsi : sliceIndices { start := some i, stop := some (i + 1), step := some 1 }
      f.tracecount =
      ((if i < 0 then max (i + (f.tracecount : Int)) 0
        else min i (f.tracecount : Int)),
       ((if i + 1 < 0 then max (i + 1 + (f.tracecount : Int)) 0
         else min (i + 1) (f.tracecount : Int)), 1)) := by
    simp [sliceIndices]
  simp only [hsi]
  have hgoal : field_forall f field
      (if i < 0 then max (i + (f.tracecount : Int)) 0 else min i (f.tracecount : Int))
      (if i + 1 < 0 then max (i + 1 + (f.tracecount : Int)) 0
        else min (i + 1) (f.tracecount : Int)) 1 = scalarAttrSpec f field i := by
    unfold field_forall scalarAttrSpec
    by_cases hA : 0 ≤ i ∧ i < (f.tracecount : Int)
    · have e1 : (if i < 0 then max (i + (f.tracecount : Int)) 0
          else min i (f.tracecount : Int)) = i := by
        rw [if_neg (by omega)]
        omega
      have e2 : (if i + 1 < 0 then max (i + 1 + (f.tracecount : Int)) 0
          else min (i + 1) (f.tracecount : Int)) = i + 1 := by
        rw [if_neg (by omega)]
        omega
      rw [e1, e2, pyRange_one i (i + 1) rfl, if_pos hA]
      simp
    · by_cases hB : -(f.tracecount : Int) ≤ i ∧ i ≤ -2
      · have e1 : (if i < 0 then max (i + (f.tracecount : Int)) 0
            else min i (f.tracecount : Int)) = i + (f.tracecount : Int) := by
          rw [if_pos (by omega)]
          omega
        have e2 : (if i + 1 < 0 then max (i + 1 + (f.tracecount : Int)) 0
            else min (i + 1) (f.tracecount : Int)) = i + (f.tracecount : Int) + 1 := by
          rw [if_pos (by omega)]
          omega
        rw [e1, e2, pyRange_one _ _ rfl, if_neg hA, if_pos hB]
        simp
      · have key : (if i + 1 < 0 then max (i + 1 + (f.tracecount : Int)) 0
            else min (i + 1) (f.tracecount : Int)) ≤
            (if i < 0 then max (i + (f.tracecount : Int)) 0
              else min i (f.tracecount : Int)) := by
          split_ifs <;> omega
        rw [pyRange_nil _ _ key, if_neg hA, if_neg hB]
        simp
  rw [hgoal]

/-- A successful iline access returns a state whose geometry, other caches and data
are unchanged and whose inline cache slot holds the returned view. -/
theorem iline_acc_exists (f : SegyFile) (hu : ¬ f.unstructured = true) :
    ∃ v1 f1, f.iline_acc = .ok (v1, f1) ∧
      f1._ilines = f._ilines ∧ f1._xline = f._xline ∧ f1._gather = f._gather ∧
      f1.depth = f.depth ∧ f1._iline = some v1 := by
  cases hc : f._iline with
  | some v0 =>
      exact ⟨v0, f, by simp [SegyFile.iline_acc, hu, hc], rfl, rfl, rfl, rfl, hc⟩
  | none =>
      exact ⟨⟨f.nextId⟩, { f with _iline := some ⟨f.nextId⟩, nextId := f.nextId + 1 },
        by simp [SegyFile.iline_acc, hu, hc], rfl, rfl, rfl, rfl, rfl⟩

/-- A successful xline access returns a state whose geometry, other caches and data
are unchanged and whose crossline cache slot holds the returned view. -/
theorem xline_acc_exists (f : SegyFile) (hu : ¬ f.unstructured = true) :
    ∃ v1 f1, f.xline_acc = .ok (v1, f1) ∧
      f1._ilines = f._ilines ∧ f1._iline = f._iline ∧ f1._gather = f._gather ∧
      f1.depth = f.depth ∧ f1._xline = some v1 := by
  cases hc : f._xline with
  | some v0 =>
      exact ⟨v0, f, by simp [SegyFile.xline_acc, hu, hc], rfl, rfl, rfl, rfl, hc⟩
  | none =>
      exact ⟨⟨f.nextId⟩, { f with _xline := some ⟨f.nextId⟩, nextId := f.nextId + 1 },
        by simp [SegyFile.xline_acc, hu, hc], rfl, rfl, rfl, rfl, rfl⟩

/-- Accessing the iline property again on the state a successful access returned gives
the identical object and the identical state. -/
theorem iline_acc_idem (f f' : SegyFile) (v : ViewObj)
    (h : f.iline_acc = .ok (v, f')) : f'.iline_acc = .ok (v, f') := by
  by_cases hu : f.unstructured = true
  · simp [SegyFile.iline_acc, hu] at h
  · simp only [SegyFile.iline_acc, if_neg hu] at h
    cases hc : f._iline with
    | some v0 =>
        simp only [hc, Except.ok.injEq, Prod.mk.injEq] at h
        obtain ⟨hv, hf⟩ := h
        subst hv
        subst hf
        simp [SegyFile.iline_acc, hu, hc]
    | none =>
        simp only [hc, Except.ok.injEq, Prod.mk.injEq] at h
        obtain ⟨hv, hf⟩ := h
        subst hv
        subst hf
        have hu2 : ({ f with _iline := some ⟨f.nextId⟩, nextId := f.nextId + 1 } :
            SegyFile)._ilines.isNone ≠ true := by
          simpa [SegyFile.unstructured, SegyFile.ilines] using hu
        simp [SegyFile.iline_acc, SegyFile.unstructured, SegyFile.ilines, hu2]

/-- Accessing the xline property again on the state a successful access returned gives
the identical object and the identical state. -/
theorem xline_acc_idem (f f' : SegyFile) (v : ViewObj)
    (h : f.xline_acc = .ok (v, f')) : f'.xline_acc = .ok (v, f') := by
  by_cases hu : f.unstructured = true
  · simp [SegyFile.xline_acc, hu] at h
  · simp only [SegyFile.xline_acc, if_neg hu] at h
    cases hc : f._xline with
    | some v0 =>
        simp only [hc, Except.ok.injEq, Prod.mk.injEq] at h
        obtain ⟨hv, hf⟩ := h
        subst hv
        subst hf
        simp [SegyFile.xline_acc, hu, hc]
    | none =>
        simp only [hc, Except.ok.injEq, Prod.mk.injEq] at h
        obtain ⟨hv, hf⟩ := h
        subst hv
        subst hf
        have hu2 : ({ f with _xline := some ⟨f.nextId⟩, nextId := f.nextId + 1 } :
            SegyFile)._ilines.isNone ≠ true := by
          simpa [SegyFile.unstructured, SegyFile.ilines] using hu
        simp [SegyFile.xline_acc, SegyFile.unstructured, SegyFile.ilines, hu2]

/-- Accessing the depth_slice property again on the state a successful access returned
gives the identical object and the identical state. -/
theorem depth_acc_idem (f f' : SegyFile) (v : ViewObj)
    (h : f.depth_slice_acc = .ok (v, f')) : f'.depth_slice_acc = .ok (v, f') := by
  by_cases hu : f.unstructured = true
  · simp [SegyFile.depth_slice_acc, hu] at h
  · simp only [SegyFile.depth_slice_acc, if_neg hu] at h
    cases hc : f.depth with
    | some v0 =>
        simp only [hc, Except.ok.injEq, Prod.mk.injEq] at h
        obtain ⟨hv, hf⟩ := h
        subst hv
        subst hf
        simp [SegyFile.depth_slice_acc, hu, hc]
    | none =>
        simp only [hc, Except.ok.injEq, Prod.mk.injEq] at h
        obtain ⟨hv, hf⟩ := h
        subst hv
        subst hf
        have hu2 : ({ f with depth := some ⟨f.nextId⟩, nextId := f.nextId + 1 } :
            SegyFile)._ilines.isNone ≠ true := by
          simpa [SegyFile.unstructured, SegyFile.ilines] using hu
        simp [SegyFile.depth_slice_acc, SegyFile.unstructured, SegyFile.ilines, hu2]

/-- Accessing the gather property again on the state a successful access returned
gives the identical object and the identical state. -/
theorem gather_acc_idem (f f' : SegyFile) (v : ViewObj)
    (h : f.gather_acc = .ok (v, f')) : f'.gather_acc = .ok (v, f') := by
  by_cases hu : f.unstructured = true
  · simp [SegyFile.gather_acc, hu] at h
  · simp only [SegyFile.gather_acc, if_neg hu] at h
    cases hc : f._gather with
    | some v0 =>
        simp only [hc, Except.ok.injEq, Prod.mk.injEq] at h
        obtain ⟨hv, hf⟩ := h
        subst hv
        subst hf
        simp [SegyFile.gather_acc, hu, hc]
    | none =>
        simp only [hc] at h
        obtain ⟨v1, f1, hi, hi1, -, hig, -, -⟩ := iline_acc_exists f hu
        simp only [hi] at h
        have hu1 : ¬ f1.unstructured = true := by
          simpa [SegyFile.unstructured, SegyFile.ilines, hi1] using hu
        obtain ⟨v2, f2, hx, hx1, -, hxg, -, -⟩ := xline_acc_exists f1 hu1
        simp only [hx] at h
        simp only [Except.ok.injEq, Prod.mk.injEq] at h
        obtain ⟨hv, hf⟩ := h
        subst hv
        subst hf
        have hu2 : ({ f2 with _gather := some ⟨f2.nextId⟩, nextId := f2.nextId + 1 } :
            SegyFile)._ilines.isNone ≠ true := by
          have : f2._ilines = f._ilines := by rw [hx1, hi1]
          simpa [this, SegyFile.unstructured, SegyFile.ilines] using hu
        simp [SegyFile.gather_acc, SegyFile.unstructured, SegyFile.ilines, hu2]

/-- Counterexample to claim C4: accessing the text property twice on the same open
file constructs two distinct objects, not one cached view. -/
theorem C4_counterexample :
    fStruct.text_acc.1 ≠ ((fStruct.text_acc.2).text_acc).1 ∧
    fStruct.text_acc.1 = (⟨0⟩ : ViewObj) ∧
    ((fStruct.text_acc.2).text_acc).1 = (⟨1⟩ : ViewObj) :=
  ⟨by decide, rfl, rfl⟩

/-- Claim C4 amended: the iline, xline, gather and depth_slice accessors are each
lazily constructed on first access and cached: once an access has returned a view and
a file state, accessing the same property on that state returns the identical object
and leaves the state unchanged, so each is constructed at most once (one Line handle
per axis). The text and bin accessors are not cached: every access constructs a fresh
object. -/
theorem C4_cached_amended (f : SegyFile) (v : ViewObj) (f' : SegyFile) :
    (f.iline_acc = .ok (v, f') → f'.iline_acc = .ok (v, f')) ∧
    (f.xline_acc = .ok (v, f') → f'.xline_acc = .ok (v, f')) ∧
    (f.gather_acc = .ok (v, f') → f'.gather_acc = .ok (v, f')) ∧
    (f.depth_slice_acc = .ok (v, f') → f'.depth_slice_acc = .ok (v, f')) ∧
    f.text_acc.1 ≠ ((f.text_acc.2).text_acc).1 ∧
    f.bin_acc.1 ≠ ((f.bin_acc.2).bin_acc).1 :=
  ⟨iline_acc_idem f f' v, xline_acc_idem f f' v, gather_acc_idem f f' v,
   depth_acc_idem f f' v,
   by simp [SegyFile.text_acc],
   by simp [SegyFile.bin_acc]⟩

/-- Witness for the amended claim C4: the first iline access on the concrete
structured file constructs the view, and re-access on the resulting state returns the
identical cached object with the state unchanged. -/
theorem C4_witness : fStructIline.iline_acc = .ok (⟨0⟩, fStructIline) :=
  (C4_cached_amended fStruct ⟨0⟩ fStructIline).1 rfl

end Segyio
